import Mathlib

/-!
Verification development for the EADA Pro adaptive control engine.

Shallow embedding of the control-relevant parts of the repository:
* `GestureController._classify_gesture` / `detect_gestures`
  (src/modules/perception/gesture_controller.py)
* the stability gate of `BrightnessController.adapt_to_distance` and
  `VolumeController.adapt_to_distance` (identical logic in both files)
* `VolumeController.set_volume` / `BrightnessController.set_brightness`
* the presence-detection block of `SystemManager.process_frame`
* `WeightedAdapter` (src/modules/adaptation/weighted_adapter.py)
* the method surface of the exported `GestureController` class.

Python floats are modelled as exact rationals (`ℚ`) where the source only
adds, multiplies and compares, and as reals (`ℝ`) where the source uses
`**` (power curve) or `np.sqrt`.
-/

namespace EADA

/-! ### Configuration constants (src/config/settings.py) -/

/-- settings.ABSENCE_TIMEOUT = 3.0 seconds. -/
def ABSENCE_TIMEOUT : ℚ := 3

/-- settings.BRIGHTNESS_MIN = 20. -/
def BRIGHTNESS_MIN : ℚ := 20

/-- settings.BRIGHTNESS_MAX = 100. -/
def BRIGHTNESS_MAX : ℚ := 100

/-- settings.BRIGHTNESS_STEP = 2. -/
def BRIGHTNESS_STEP : ℚ := 2

/-- settings.BRIGHTNESS_SMOOTHING = 0.3. -/
def BRIGHTNESS_SMOOTHING : ℚ := 0.3

/-- settings.VOLUME_MIN = 0.15. -/
def VOLUME_MIN : ℚ := 0.15

/-- settings.VOLUME_MAX = 1.0. -/
def VOLUME_MAX : ℚ := 1

/-- settings.VOLUME_STEP = 0.02. -/
def VOLUME_STEP : ℚ := 0.02

/-- settings.VOLUME_SMOOTHING = 0.3. -/
def VOLUME_SMOOTHING : ℚ := 0.3

/-- settings.MIN_DISTANCE_CM = 25. -/
def MIN_DISTANCE_CM : ℚ := 25

/-- settings.MAX_DETECTION_DISTANCE = 400 (cm). -/
def MAX_DETECTION_DISTANCE : ℚ := 400

/-- settings.BRIGHTNESS_CLOSE = 30. -/
def BRIGHTNESS_CLOSE : ℚ := 30

/-- settings.BRIGHTNESS_FAR = 100. -/
def BRIGHTNESS_FAR : ℚ := 100

/-- settings.STABLE_TIME_THRESHOLD = 1.5 seconds. -/
def STABLE_TIME_THRESHOLD : ℚ := 1.5

/-- settings.DISTANCE_GRACE_RANGE = 0.05 meters (5 cm). -/
def DISTANCE_GRACE_RANGE : ℚ := 0.05

/-! ### Gesture classifier (GestureController, gesture_controller.py) -/

/-- Gesture tags produced by `GestureController._classify_gesture`; the
source uses the Python strings with the same spelling. -/
inductive GestureType
  | toggle_gestures
  | volume_control
  | brightness_control
  | play_pause
  | next_track
  | prev_track
deriving Repr, DecidableEq

/-- Mutable attributes of `GestureController` that `_classify_gesture` and
`detect_gestures` read or write.  `cooldown_seconds = 2.0` and
`stability_threshold = 2` are constants in `__init__` and are kept as the
definitions `cooldownSeconds` / `stabilityThreshold` below. -/
structure GestureState where
  gesture_active : Bool
  in_cooldown : Bool
  cooldown_start_time : ℚ
  registered_gesture : Option GestureType
  registered_finger_count : Option Nat
  last_finger_count : Option Nat
  finger_count_stable_frames : Nat
  last_hand_x : Option ℚ
  last_hand_y : Option ℚ
  hand_present : Bool
deriving Repr, DecidableEq

/-- GestureController.cooldown_seconds = 2.0. -/
def cooldownSeconds : ℚ := 2

/-- GestureController.stability_threshold = 2 frames. -/
def stabilityThreshold : Nat := 2

/-- Attribute values set in `GestureController.__init__`. -/
def initGestureState : GestureState :=
  { gesture_active := true
    in_cooldown := false
    cooldown_start_time := 0
    registered_gesture := none
    registered_finger_count := none
    last_finger_count := none
    finger_count_stable_frames := 0
    last_hand_x := none
    last_hand_y := none
    hand_present := false }

/-- Clamping `max(0, min(100, v))` used for continuous gesture values. -/
def clamp0to100 (v : ℚ) : ℚ := max 0 (min 100 v)

/-- Embedding of `GestureController._classify_gesture` (gesture_controller.py
lines 198-303).  Inputs mirror the Python arguments; `now` stands for the
`time.time()` read at the top of the method.  The result is the updated
object state together with the returned `(gesture_type, value)` pair,
`none` standing for Python's `(None, None)`. -/
def classifyGesture (s : GestureState) (now : ℚ) (finger_count : Nat)
    (fingers : List Nat) (x_percent delta_x : ℚ) :
    GestureState × Option (GestureType × Option ℚ) :=
  if finger_count = 0 then
    -- fist: always checked first, bypasses the cooldown check below
    if fingers.sum ≠ 0 then (s, none)
    else if s.registered_gesture = some GestureType.toggle_gestures ∧
            s.registered_finger_count = some 0 then (s, none)
    else
      ({ s with gesture_active := !s.gesture_active,
                in_cooldown := true,
                cooldown_start_time := now,
                registered_gesture := some GestureType.toggle_gestures,
                registered_finger_count := some 0 },
       some (GestureType.toggle_gestures, none))
  else if s.in_cooldown ∧ now - s.cooldown_start_time < cooldownSeconds then
    -- still in cooldown: every non-fist gesture returns (None, None)
    (s, none)
  else
    let s1 := if s.in_cooldown then
        { s with in_cooldown := false,
                 registered_gesture := none,
                 registered_finger_count := none }
      else s
    if s1.registered_gesture.isSome ∧
       s1.registered_finger_count = some finger_count then (s1, none)
    else if finger_count = 1 then
      (s1, some (GestureType.volume_control,
                 some (clamp0to100 (x_percent + delta_x * 2))))
    else if finger_count = 2 then
      (s1, some (GestureType.brightness_control,
                 some (clamp0to100 (x_percent + delta_x * 2))))
    else if ¬ s1.gesture_active then (s1, none)
    else
      let gesture_type : Option GestureType :=
        if finger_count = 3 then some GestureType.play_pause
        else if finger_count = 4 then some GestureType.next_track
        else if finger_count = 5 then some GestureType.prev_track
        else none
      match gesture_type with
      | some g =>
          ({ s1 with in_cooldown := true,
                     cooldown_start_time := now,
                     registered_gesture := some g,
                     registered_finger_count := some finger_count },
           some (g, none))
      | none => (s1, none)

/-- Per-tick hand observation: the per-finger 0/1 vector from
`_count_fingers` and the clamped position percentages from
`_get_hand_position`. -/
structure HandObs where
  fingers : List Nat
  x_percent : ℚ
  y_percent : ℚ
deriving Repr, DecidableEq

/-- Movement-delta and classification tail of
`GestureController.detect_gestures` (lines 355-365): `_get_movement_delta`
followed by `_classify_gesture`. -/
def detectTail (s : GestureState) (now : ℚ) (h : HandObs)
    (finger_count : Nat) :
    GestureState × Option (GestureType × Option ℚ) :=
  match s.last_hand_x, s.last_hand_y with
  | some lx, some _ =>
      classifyGesture
        { s with last_hand_x := some h.x_percent,
                 last_hand_y := some h.y_percent }
        now finger_count h.fingers h.x_percent (h.x_percent - lx)
  | _, _ =>
      classifyGesture
        { s with last_hand_x := some h.x_percent,
                 last_hand_y := some h.y_percent }
        now finger_count h.fingers h.x_percent 0

/-- Embedding of `GestureController.detect_gestures` (lines 305-386) with
the camera/detector stripped: the input is `none` when no hand is found,
else the observation extracted from the frame.  At most one gesture is
returned per tick. -/
def detectGestures (s : GestureState) (now : ℚ) (obs : Option HandObs) :
    GestureState × Option (GestureType × Option ℚ) :=
  match obs with
  | none =>
      -- no hand: reset movement and stability tracking, keep the cooldown
      ({ s with last_hand_x := none, last_hand_y := none,
                hand_present := false, last_finger_count := none,
                finger_count_stable_frames := 0 }, none)
  | some h =>
      let s0 := { s with hand_present := true }
      let finger_count := h.fingers.sum
      if finger_count = 3 ∨ finger_count = 4 ∨ finger_count = 5 then
        let s1 :=
          if s0.last_finger_count = some finger_count then
            { s0 with finger_count_stable_frames :=
                        s0.finger_count_stable_frames + 1 }
          else
            { s0 with last_finger_count := some finger_count,
                      finger_count_stable_frames := 1 }
        if s1.finger_count_stable_frames < stabilityThreshold then (s1, none)
        else detectTail s1 now h finger_count
      else
        detectTail
          { s0 with last_finger_count := none,
                    finger_count_stable_frames := 0 }
          now h finger_count

/-- Object state right after a `next_track` trigger at time 0: fields as
`_classify_gesture` leaves them when four fingers fire from the initial
state. -/
def nextTrackState : GestureState :=
  { gesture_active := true
    in_cooldown := true
    cooldown_start_time := 0
    registered_gesture := some GestureType.next_track
    registered_finger_count := some 4
    last_finger_count := some 4
    finger_count_stable_frames := 2
    last_hand_x := some 50
    last_hand_y := some 50
    hand_present := true }

/-! ### Stability gate (adapt_to_distance in brightness_controller.py lines
96-170 and volume_controller.py lines 102-178; the gating logic of the two
methods is line-for-line identical, only the final curve differs) -/

/-- Distance-tracking attributes shared by `BrightnessController` and
`VolumeController` (set in their `__init__`): distances in meters. -/
structure StabilityState where
  last_distance : Option ℚ
  distance_stable_since : Option ℚ
  last_updated_distance : Option ℚ
deriving Repr, DecidableEq

/-- Attribute values set in the controllers' `__init__`. -/
def initStabilityState : StabilityState :=
  { last_distance := none
    distance_stable_since := none
    last_updated_distance := none }

/-- Tail of the gate once the grace-range early return did not fire:
movement detection, stability timing, and the fall-through to the update
path.  `some distance_m` means the method reached the code after the
if/else ladder, i.e. set `last_updated_distance = distance_m` and applied
the mapped target with `smooth=False`. -/
def adaptGateRest (s : StabilityState) (now distance_m : ℚ) :
    StabilityState × Option ℚ :=
  match s.last_distance with
  | some last_d =>
      let distance_change := |distance_m - last_d|
      if 0.05 ≤ distance_change then
        -- moving: reset timer, remember the raw value, suppress
        ({ s with distance_stable_since := some now,
                  last_distance := some distance_m }, none)
      else
        match s.distance_stable_since with
        | some since =>
            if STABLE_TIME_THRESHOLD ≤ now - since then
              match s.last_updated_distance with
              | none =>
                  ({ last_distance := some distance_m,
                     distance_stable_since := s.distance_stable_since,
                     last_updated_distance := some distance_m },
                   some distance_m)
              | some lu =>
                  if DISTANCE_GRACE_RANGE ≤ |distance_m - lu| then
                    ({ last_distance := some distance_m,
                       distance_stable_since := s.distance_stable_since,
                       last_updated_distance := some distance_m },
                     some distance_m)
                  else (s, none)
            else
              ({ s with last_distance := some distance_m }, none)
        | none =>
            ({ s with distance_stable_since := some now,
                      last_distance := some distance_m }, none)
  | none =>
      -- first measurement: start the stability timer
      ({ s with distance_stable_since := some now,
                last_distance := some distance_m }, none)

/-- Embedding of the stability gate of `adapt_to_distance`.  `distance` is
in cm (the method converts to meters first); `now` stands for
`time.time()`.  Returns the updated state and `some applied_distance_m`
exactly when the update path at the end of the method runs. -/
def adaptToDistanceGate (s : StabilityState) (now distance : ℚ) :
    StabilityState × Option ℚ :=
  let distance_m := distance / 100
  match s.last_updated_distance with
  | some lu =>
      if |distance_m - lu| < DISTANCE_GRACE_RANGE then
        -- within grace range: reset the timer, no update
        ({ s with distance_stable_since := some now }, none)
      else adaptGateRest s now distance_m
  | none => adaptGateRest s now distance_m

/-- Feeds a list of `(time, distance_cm)` ticks through the gate and
collects the applied updates (in meters). -/
def runGate (s : StabilityState) (ticks : List (ℚ × ℚ)) :
    StabilityState × List ℚ :=
  ticks.foldl
    (fun acc t =>
      let r := adaptToDistanceGate acc.1 t.1 t.2
      (r.1, acc.2 ++ (match r.2 with | some v => [v] | none => [])))
    (s, [])

/-- Gate state after a prior applied update at 100 cm (1 m). -/
def appliedAt100State : StabilityState :=
  { last_distance := some 1
    distance_stable_since := some 0
    last_updated_distance := some 1 }

/-! ### Actuator setters (set_volume / set_brightness) -/

/-- Embedding of `VolumeController.set_volume` (volume_controller.py lines
56-100) in simulation mode, returning the new `current_volume`.  The
value is clamped to `[VOLUME_MIN, VOLUME_MAX]`, optionally blended with
`VOLUME_SMOOTHING`, and the write is skipped when the change is below
`VOLUME_STEP`. -/
def setVolume (current value : ℚ) (smooth : Bool) : ℚ :=
  let v := max VOLUME_MIN (min value VOLUME_MAX)
  let new_volume :=
    if smooth then VOLUME_SMOOTHING * v + (1 - VOLUME_SMOOTHING) * current
    else v
  if |new_volume - current| < VOLUME_STEP then current else new_volume

/-- Embedding of `BrightnessController.set_brightness` (lines 50-94) in
simulation mode, returning the new `current_brightness`.  Callers pass
`int(...)` values; the clamp and blend are as in the source. -/
def setBrightness (current value : ℚ) (smooth : Bool) : ℚ :=
  let v := max BRIGHTNESS_MIN (min value BRIGHTNESS_MAX)
  let new_brightness :=
    if smooth then
      BRIGHTNESS_SMOOTHING * v + (1 - BRIGHTNESS_SMOOTHING) * current
    else v
  if |new_brightness - current| < BRIGHTNESS_STEP then current
  else new_brightness

/-- `VolumeController.mute`: `set_volume(0.0, smooth=False)`. -/
def muteVolume (current : ℚ) : ℚ := setVolume current 0 false

/-- `VolumeController.increase_volume`. -/
def increaseVolume (current amount : ℚ) : ℚ :=
  setVolume current (current + amount) false

/-- `VolumeController.decrease_volume`. -/
def decreaseVolume (current amount : ℚ) : ℚ :=
  setVolume current (current - amount) false

/-! ### Presence detection (system_manager.py lines 199-212) -/

/-- Media transport commands issued by the presence block
(`_pause_media` / `_resume_media`). -/
inductive MediaCommand
  | pause
  | resume
deriving Repr, DecidableEq

/-- Presence-related state of `SystemManager`: `last_face_time` and
`media_paused`. -/
structure PresenceState where
  last_face_time : ℚ
  media_paused : Bool
deriving Repr, DecidableEq

/-- Embedding of the presence-detection block of
`SystemManager.process_frame`: on faces present refresh `last_face_time`
and resume if paused; on absence, pause once the absence duration exceeds
`ABSENCE_TIMEOUT` and the media is not already paused. -/
def presenceStep (s : PresenceState) (now : ℚ) (face_count : Nat) :
    PresenceState × Option MediaCommand :=
  if 0 < face_count then
    if s.media_paused then
      ({ last_face_time := now, media_paused := false },
       some MediaCommand.resume)
    else
      ({ s with last_face_time := now }, none)
  else
    if ABSENCE_TIMEOUT < now - s.last_face_time ∧ ¬ s.media_paused then
      ({ s with media_paused := true }, some MediaCommand.pause)
    else (s, none)

/-! ### Method surface of the exported GestureController (for the
`get_smoothed_gesture` call in process_frame) -/

/-- Names of the methods defined on the `GestureController` class of
src/modules/perception/gesture_controller.py, the class exported by
src/modules/perception/init (gesture_controller_old.py is not
imported anywhere). -/
def gestureControllerMethodNames : List String :=
  ["__init__", "_count_fingers", "_get_hand_position",
   "_get_movement_delta", "_classify_gesture", "detect_gestures",
   "update_cooldown", "is_active", "draw_gesture_info"]

/-- Python attribute lookup on a `GestureController` instance, restricted
to methods. -/
def hasAttr (name : String) : Bool :=
  gestureControllerMethodNames.contains name

/-- Outcome of one `SystemManager.process_frame` call. -/
inductive TickOutcome
  | skipped
  | attrError (name : String)
  | completed
deriving Repr, DecidableEq

/-- settings.ENABLE_GESTURE_RECOGNITION = True. -/
def ENABLE_GESTURE_RECOGNITION : Bool := true

/-- Gesture step of `process_frame` (system_manager.py lines 124-128):
with gesture recognition enabled it calls `detect_gestures(frame)` and
then `get_smoothed_gesture()`; looking up a name the class does not
define raises `AttributeError`. -/
def processFrameGestureStep (enabled : Bool) : TickOutcome :=
  if enabled then
    if ¬ hasAttr ("detect_gestures") then
      TickOutcome.attrError ("detect_gestures")
    else if ¬ hasAttr ("get_smoothed_gesture") then
      TickOutcome.attrError ("get_smoothed_gesture")
    else TickOutcome.completed
  else TickOutcome.completed

/-- Control-flow skeleton of `SystemManager.process_frame` up to the
gesture step: a failed frame read returns early (lines 107-109),
otherwise the gesture step runs. -/
def processFrame (read_ok : Bool) : TickOutcome :=
  if ¬ read_ok then TickOutcome.skipped
  else processFrameGestureStep ENABLE_GESTURE_RECOGNITION

/-! ### Volume power curve (volume_controller.py lines 168-178) -/

/-- settings.VOLUME_DISTANCE_EXPONENT = 0.4. -/
noncomputable def VOLUME_DISTANCE_EXPONENT : ℝ := 0.4

/-- `np.clip(x, 0, 1)`. -/
noncomputable def clip01 (x : ℝ) : ℝ := min 1 (max 0 x)

/-- Normalization of the distance into [0, 1] over
`[MIN_DISTANCE_CM, MAX_DETECTION_DISTANCE]` as in `adapt_to_distance`. -/
noncomputable def normalizedDistance (distance : ℝ) : ℝ :=
  clip01 ((distance - 25) / (400 - 25))

/-- Power-curve volume target in percent:
`20 + 80 * normalized ** VOLUME_DISTANCE_EXPONENT`. -/
noncomputable def volumeTargetPercent (normalized : ℝ) : ℝ :=
  20 + 80 * normalized ^ VOLUME_DISTANCE_EXPONENT

/-- Conversion `target = target_percent / 100` to the 0-1 scale applied
before `set_volume(target, smooth=False)`. -/
noncomputable def volumeTarget (normalized : ℝ) : ℝ :=
  volumeTargetPercent normalized / 100

/-! ### Weighted adapter (weighted_adapter.py) -/

/-- The fields of `FaceData` read by `WeightedAdapter`: distance in cm and
the normalized (0-1) frame position. -/
structure FaceData where
  distance : ℝ
  position : ℝ × ℝ

/-- `WeightedAdapter.calculate_distance_weight`: weight 2.0 for faces
closer than `DISTANCE_THRESHOLD_NEAR = 100` cm, else 1.0. -/
noncomputable def calculateDistanceWeight (distance : ℝ) : ℝ :=
  if distance < 100 then 2.0 else 1.0

/-- `WeightedAdapter.calculate_spatial_weight`: distance from the frame
center normalized by the literal 0.707; weight `CENTER_WEIGHT = 1.5` when
the normalized distance is below `1 - CENTER_REGION_RATIO = 1 - 0.6`,
else `EDGE_WEIGHT = 1.0`. -/
noncomputable def calculateSpatialWeight (position : ℝ × ℝ) : ℝ :=
  let dist_from_center :=
    Real.sqrt ((position.1 - 0.5) ^ 2 + (position.2 - 0.5) ^ 2)
  let normalized_dist := dist_from_center / 0.707
  if normalized_dist < 1 - 0.6 then 1.5 else 1.0

/-- `WeightedAdapter.calculate_face_weight`: product of the two weights. -/
noncomputable def calculateFaceWeight (face : FaceData) : ℝ :=
  calculateDistanceWeight face.distance * calculateSpatialWeight face.position

/-- Embedding of `WeightedAdapter.calculate_weighted_distance` (lines
81-105): the accumulation loop over the faces, the `total_weight > 0`
division, and the `np.mean` fallback; empty input returns
`MAX_DETECTION_DISTANCE`. -/
noncomputable def calculateWeightedDistance (faces : List FaceData) : ℝ :=
  match faces with
  | [] => 400
  | _ :: _ =>
    let acc := faces.foldl
      (fun (p : ℝ × ℝ) face =>
        (p.1 + face.distance * calculateFaceWeight face,
         p.2 + calculateFaceWeight face))
      (0, 0)
    if 0 < acc.2 then acc.1 / acc.2
    else (faces.map FaceData.distance).sum / faces.length

/-- Modelled from the spec: "Aggregate = weighted arithmetic mean of
distances; if total weight is zero, fall back to unweighted arithmetic
mean."  Stated with list sums for comparison with the loop of
`calculate_weighted_distance`. -/
noncomputable def specWeightedAggregate (faces : List FaceData) : ℝ :=
  let total := (faces.map calculateFaceWeight).sum
  if 0 < total then
    (faces.map (fun f => f.distance * calculateFaceWeight f)).sum / total
  else (faces.map FaceData.distance).sum / faces.length

/-- Object state of C4's witness: gestures disabled while a `next_track`
cooldown is running. -/
def disabledCooldownState : GestureState :=
  { nextTrackState with gesture_active := false }

/-! ### Claims about the gesture classifier -/

/-- C1 counterexample: from the initial state, four fingers at time 0
trigger `next_track` and start its cooldown, but five fingers
(`prev_track`) at time 1 — inside the 2-second window — return no gesture
at all, refuting "a different discrete kind arriving during an active
cooldown always preempts it and fires immediately". -/
theorem prev_track_during_next_cooldown_suppressed :
    (classifyGesture initGestureState 0 4 [1, 1, 1, 1, 0] 50 0).2 =
      some (GestureType.next_track, none) ∧
    (classifyGesture
        (classifyGesture initGestureState 0 4 [1, 1, 1, 1, 0] 50 0).1
        1 5 [1, 1, 1, 1, 1] 50 0).2 = none := by
  constructor
  · norm_num [classifyGesture, initGestureState, cooldownSeconds]
  · norm_num [classifyGesture, initGestureState, cooldownSeconds]

/-- C1 (amended): while `in_cooldown` holds and less than
`cooldown_seconds` have elapsed, `_classify_gesture` returns no gesture
for EVERY non-fist finger count — the same discrete kind is never
re-emitted, but a different discrete kind is suppressed as well rather
than preempting; it fires only once the window has expired (second
conjunct: an expired cooldown lets `prev_track` fire on its first
classified tick). -/
theorem cooldown_suppresses_every_non_fist_gesture :
    (∀ (s : GestureState) (now : ℚ) (fc : Nat) (fingers : List Nat)
       (x dx : ℚ),
      s.in_cooldown = true →
      now - s.cooldown_start_time < cooldownSeconds →
      fc ≠ 0 →
      classifyGesture s now fc fingers x dx = (s, none)) ∧
    (∀ (s : GestureState) (now : ℚ) (fingers : List Nat) (x dx : ℚ),
      s.in_cooldown = true →
      cooldownSeconds ≤ now - s.cooldown_start_time →
      s.gesture_active = true →
      (classifyGesture s now 5 fingers x dx).2 =
        some (GestureType.prev_track, none)) := by
  constructor
  · intro s now fc fingers x dx hcool hlt hfc
    unfold classifyGesture
    rw [if_neg hfc, if_pos ⟨hcool, hlt⟩]
  · intro s now fingers x dx hcool hle hact
    unfold classifyGesture
    simp [hcool, hact, not_lt.mpr hle]

/-- C1 witness: the suppression and the post-expiry firing at the concrete
post-`next_track` state. -/
theorem cooldown_suppresses_every_non_fist_gesture_witness :
    classifyGesture nextTrackState 1 5 [1, 1, 1, 1, 1] 50 0 =
      (nextTrackState, none) ∧
    (classifyGesture nextTrackState 3 5 [1, 1, 1, 1, 1] 50 0).2 =
      some (GestureType.prev_track, none) := by
  constructor
  · exact cooldown_suppresses_every_non_fist_gesture.1 nextTrackState 1 5
      [1, 1, 1, 1, 1] 50 0 rfl
      (by norm_num [nextTrackState, cooldownSeconds]) (by norm_num)
  · exact cooldown_suppresses_every_non_fist_gesture.2 nextTrackState 3
      [1, 1, 1, 1, 1] 50 0 rfl
      (by norm_num [nextTrackState, cooldownSeconds]) rfl

/-- C2 counterexample: in the cooldown window right after a `next_track`
trigger, a one-finger tick returns no gesture, refuting "continuous
gestures are emitted every tick, unconditionally on cooldown state". -/
theorem continuous_gesture_suppressed_during_cooldown :
    nextTrackState.in_cooldown = true ∧
    (classifyGesture nextTrackState 1 1 [0, 1, 0, 0, 0] 50 0).2 = none := by
  constructor
  · rfl
  · norm_num [classifyGesture, nextTrackState, cooldownSeconds]

/-- C2 (amended): with finger count 1 or 2 the classifier emits
`volume_control` / `brightness_control` valued
`clamp(x_percent + 2 * delta_x, 0, 100)` on every tick on which no
cooldown window is active (none running, or the running one has
expired), with no stability requirement — `detect_gestures` only
stability-gates counts 3/4/5, so the result for counts 1/2 is
independent of the stability counter; during an active cooldown window
continuous gestures are suppressed. -/
theorem continuous_gestures_track_position_when_no_cooldown :
    (∀ (s : GestureState) (now : ℚ) (fingers : List Nat) (x dx : ℚ),
      ¬(s.in_cooldown = true ∧
        now - s.cooldown_start_time < cooldownSeconds) →
      (s.registered_gesture = none ∨ s.in_cooldown = true) →
      (classifyGesture s now 1 fingers x dx).2 =
        some (GestureType.volume_control,
              some (clamp0to100 (x + dx * 2))) ∧
      (classifyGesture s now 2 fingers x dx).2 =
        some (GestureType.brightness_control,
              some (clamp0to100 (x + dx * 2)))) ∧
    (∀ (s : GestureState) (now : ℚ) (h : HandObs) (n m : Nat),
      h.fingers.sum = 1 ∨ h.fingers.sum = 2 →
      (detectGestures { s with finger_count_stable_frames := n }
          now (some h)).2 =
      (detectGestures { s with finger_count_stable_frames := m }
          now (some h)).2) := by
  constructor
  · intro s now fingers x dx hcool hreg
    by_cases hc : s.in_cooldown = true
    · have hexp : ¬ now - s.cooldown_start_time < cooldownSeconds := by
        intro hlt; exact hcool ⟨hc, hlt⟩
      constructor <;> simp [classifyGesture, hc, hexp]
    · have hr : s.registered_gesture = none := by
        rcases hreg with h | h
        · exact h
        · exact absurd h hc
      constructor <;> simp [classifyGesture, hc, hr]
  · intro s now h n m hsum
    rcases hsum with h1 | h2
    · simp [detectGestures, h1]
    · simp [detectGestures, h2]

/-- C2 witness: once the `next_track` cooldown has expired (tick at time
3), one finger at x = 50 with no movement emits `volume_control` 50. -/
theorem continuous_gestures_track_position_when_no_cooldown_witness :
    (classifyGesture nextTrackState 3 1 [0, 1, 0, 0, 0] 50 0).2 =
      some (GestureType.volume_control, some 50) := by
  have h := (continuous_gestures_track_position_when_no_cooldown.1
    nextTrackState 3 [0, 1, 0, 0, 0] 50 0
    (by norm_num [nextTrackState, cooldownSeconds]) (Or.inr rfl)).1
  simpa [clamp0to100] using h

/-- C4: a fist tick (finger count 0) emits nothing when the per-finger
vector is not all zero; when it is all zero and the toggle is not already
registered as held, it emits `toggle_gestures` and flips
`gesture_active`, with no condition on `in_cooldown` or on
`gesture_active` — the fist bypasses the cooldown check and re-enables
control even while disabled or while another gesture's cooldown runs. -/
theorem fist_toggle_bypasses_cooldown :
    ∀ (s : GestureState) (now : ℚ) (fingers : List Nat) (x dx : ℚ),
      (fingers.sum ≠ 0 → classifyGesture s now 0 fingers x dx = (s, none)) ∧
      (fingers.sum = 0 →
        ¬(s.registered_gesture = some GestureType.toggle_gestures ∧
          s.registered_finger_count = some 0) →
        (classifyGesture s now 0 fingers x dx).2 =
          some (GestureType.toggle_gestures, none) ∧
        (classifyGesture s now 0 fingers x dx).1.gesture_active =
          !s.gesture_active) := by
  intro s now fingers x dx
  constructor
  · intro hsum
    unfold classifyGesture
    rw [if_pos rfl, if_pos hsum]
  · intro hsum hreg
    unfold classifyGesture
    rw [if_pos rfl, if_neg (by simp [hsum]), if_neg hreg]
    exact ⟨rfl, rfl⟩

/-- C4 witness: with gestures disabled and a `next_track` cooldown
running, a clean fist emits the toggle and re-enables control; a fist
report whose finger vector shows one raised finger emits nothing. -/
theorem fist_toggle_bypasses_cooldown_witness :
    (classifyGesture disabledCooldownState 1 0 [0, 0, 0, 0, 0] 50 0).2 =
      some (GestureType.toggle_gestures, none) ∧
    (classifyGesture disabledCooldownState 1 0 [0, 0, 0, 0, 0] 50
        0).1.gesture_active = true ∧
    classifyGesture nextTrackState 1 0 [0, 1, 0, 0, 0] 50 0 =
      (nextTrackState, none) := by
  have h2 := (fist_toggle_bypasses_cooldown disabledCooldownState 1
    [0, 0, 0, 0, 0] 50 0).2 (by decide)
    (by simp [disabledCooldownState, nextTrackState])
  refine ⟨h2.1, ?_, ?_⟩
  · rw [h2.2]; rfl
  · exact (fist_toggle_bypasses_cooldown nextTrackState 1
      [0, 1, 0, 0, 0] 50 0).1 (by decide)

/-- C3: `SystemManager.process_frame` calls
`gesture_controller.get_smoothed_gesture()` on every tick with gesture
recognition enabled, but the exported `GestureController` class defines
no such method, so every tick that reads a frame successfully raises
`AttributeError` at the gesture step. -/
theorem process_frame_gesture_step_attribute_error :
    processFrame true = TickOutcome.attrError ("get_smoothed_gesture") ∧
    hasAttr ("get_smoothed_gesture") = false ∧
    hasAttr ("detect_gestures") = true ∧
    ENABLE_GESTURE_RECOGNITION = true := by
  refine ⟨?_, ?_, ?_, rfl⟩ <;>
    simp [processFrame, processFrameGestureStep, hasAttr,
      gestureControllerMethodNames, ENABLE_GESTURE_RECOGNITION]

/-! ### Claims about the stability gate -/

/-- Tick schedule of C5: raw distance held at 150 cm every half second
after a prior applied value of 100 cm. -/
def heldAt150Trace : List (ℚ × ℚ) :=
  [(0, 150), (1/2, 150), (1, 150), (3/2, 150), (2, 150), (5/2, 150)]

/-- C5: with a prior applied value of 100 cm, holding the raw distance at
150 cm (delta 50 cm ≥ the 5 cm grace range) produces exactly one applied
update — to 1.5 m — once `STABLE_TIME_THRESHOLD` has elapsed; the new
value becomes `last_updated_distance`, and every later tick with the same
raw value falls inside the grace range and is suppressed, at any time. -/
theorem stability_gate_eventually_applies :
    (runGate appliedAt100State heldAt150Trace).2 = [3/2] ∧
    (runGate appliedAt100State heldAt150Trace).1.last_updated_distance =
      some (3/2) ∧
    ∀ t : ℚ,
      (adaptToDistanceGate (runGate appliedAt100State heldAt150Trace).1
        t 150).2 = none := by
  refine ⟨?_, ?_, ?_⟩
  · norm_num [runGate, adaptToDistanceGate, adaptGateRest,
      appliedAt100State, heldAt150Trace, STABLE_TIME_THRESHOLD,
      DISTANCE_GRACE_RANGE, List.foldl, abs]
  · norm_num [runGate, adaptToDistanceGate, adaptGateRest,
      appliedAt100State, heldAt150Trace, STABLE_TIME_THRESHOLD,
      DISTANCE_GRACE_RANGE, List.foldl, abs]
  · intro t
    norm_num [runGate, adaptToDistanceGate, adaptGateRest,
      appliedAt100State, heldAt150Trace, STABLE_TIME_THRESHOLD,
      DISTANCE_GRACE_RANGE, List.foldl, abs]

/-- Tick schedule of C6: the oscillating raw distances
[100, 103, 98, 101, 99] cm over 1.2 seconds. -/
def oscillationTrace : List (ℚ × ℚ) :=
  [(0, 100), (3/10, 103), (3/5, 98), (9/10, 101), (6/5, 99)]

/-- C6: the oscillating sequence [100, 103, 98, 101, 99] cm fed over less
than 1.5 s produces zero applied updates, both from the initial state
(every tick is movement or still waiting out `STABLE_TIME_THRESHOLD`) and
from a state with a prior applied value of 100 cm (every tick is within
the 5 cm grace window and resets the stability timer). -/
theorem stability_gate_suppresses_oscillation :
    (runGate initStabilityState oscillationTrace).2 = [] ∧
    (runGate appliedAt100State oscillationTrace).2 = [] := by
  constructor
  · norm_num [runGate, adaptToDistanceGate, adaptGateRest,
      initStabilityState, oscillationTrace, STABLE_TIME_THRESHOLD,
      DISTANCE_GRACE_RANGE, List.foldl, abs]
  · norm_num [runGate, adaptToDistanceGate, adaptGateRest,
      appliedAt100State, oscillationTrace, STABLE_TIME_THRESHOLD,
      DISTANCE_GRACE_RANGE, List.foldl, abs]

/-! ### Claim about the presence tracker -/

/-- C7: with `ABSENCE_TIMEOUT = 3`, a zero subject count emits nothing
while the absence duration is at most 3 s; the first tick on which it
exceeds 3 s while not paused emits exactly one `Pause` and sets the
paused flag; further absent ticks while paused emit nothing; and any tick
with a positive count refreshes `last_face_time`, emitting `Resume`
exactly when previously paused. -/
theorem presence_timeout_pause_resume :
    ∀ (s : PresenceState) (now : ℚ) (fc : Nat),
      (fc = 0 → now - s.last_face_time ≤ ABSENCE_TIMEOUT →
        presenceStep s now fc = (s, none)) ∧
      (fc = 0 → s.media_paused = false →
        ABSENCE_TIMEOUT < now - s.last_face_time →
        presenceStep s now fc =
          ({ s with media_paused := true }, some MediaCommand.pause)) ∧
      (fc = 0 → s.media_paused = true →
        presenceStep s now fc = (s, none)) ∧
      (0 < fc →
        (presenceStep s now fc).1.last_face_time = now ∧
        (s.media_paused = true →
          (presenceStep s now fc).2 = some MediaCommand.resume ∧
          (presenceStep s now fc).1.media_paused = false) ∧
        (s.media_paused = false → (presenceStep s now fc).2 = none)) := by
  intro s now fc
  refine ⟨?_, ?_, ?_, ?_⟩
  · intro hfc hle
    simp [presenceStep, hfc, not_lt.mpr hle]
  · intro hfc hp hgt
    simp [presenceStep, hfc, hp, hgt]
  · intro hfc hp
    simp [presenceStep, hfc, hp]
  · intro hfc
    refine ⟨?_, ?_, ?_⟩
    · rcases hb : s.media_paused <;> simp [presenceStep, hfc, hb]
    · intro hp; constructor <;> simp [presenceStep, hfc, hp]
    · intro hp; simp [presenceStep, hfc, hp]

/-- C7 witness: from `last_face_time = 0`, not paused — an absent tick at
time 2 emits nothing, an absent tick at 7/2 emits the single `Pause`, an
absent tick at 5 while paused emits nothing, and a subject at 6 while
paused emits the single `Resume`. -/
theorem presence_timeout_pause_resume_witness :
    presenceStep { last_face_time := 0, media_paused := false } 2 0 =
      ({ last_face_time := 0, media_paused := false }, none) ∧
    presenceStep { last_face_time := 0, media_paused := false } (7/2) 0 =
      ({ last_face_time := 0, media_paused := true },
       some MediaCommand.pause) ∧
    presenceStep { last_face_time := 0, media_paused := true } 5 0 =
      ({ last_face_time := 0, media_paused := true }, none) ∧
    (presenceStep { last_face_time := 0, media_paused := true } 6 1).2 =
      some MediaCommand.resume := by
  refine ⟨?_, ?_, ?_, ?_⟩
  · exact (presence_timeout_pause_resume
      { last_face_time := 0, media_paused := false } 2 0).1 rfl
      (by norm_num [ABSENCE_TIMEOUT])
  · exact (presence_timeout_pause_resume
      { last_face_time := 0, media_paused := false } (7/2) 0).2.1 rfl rfl
      (by norm_num [ABSENCE_TIMEOUT])
  · exact (presence_timeout_pause_resume
      { last_face_time := 0, media_paused := true } 5 0).2.2.1 rfl rfl
  · exact ((presence_timeout_pause_resume
      { last_face_time := 0, media_paused := true } 6 1).2.2.2
      (by norm_num)).2.1 rfl |>.1

/-! ### Claim about actuator clamping -/

/-- Helper for C8: the clamp-blend-step pattern shared by `set_volume`
and `set_brightness` keeps an in-range current value in range. -/
theorem clamp_blend_bounds (m M α st c v : ℚ) (b : Bool) (hmM : m ≤ M)
    (ha0 : 0 ≤ α) (ha1 : α ≤ 1) (hl : m ≤ c) (hu : c ≤ M) :
    m ≤ (if |(if b then α * max m (min v M) + (1 - α) * c
              else max m (min v M)) - c| < st then c
         else (if b then α * max m (min v M) + (1 - α) * c
               else max m (min v M))) ∧
    (if |(if b then α * max m (min v M) + (1 - α) * c
          else max m (min v M)) - c| < st then c
     else (if b then α * max m (min v M) + (1 - α) * c
           else max m (min v M))) ≤ M := by
  have hw1 : m ≤ max m (min v M) := le_max_left _ _
  have hw2 : max m (min v M) ≤ M := max_le hmM (min_le_right _ _)
  have hp1 : 0 ≤ α * (max m (min v M) - m) :=
    mul_nonneg ha0 (sub_nonneg.mpr hw1)
  have hp2 : 0 ≤ (1 - α) * (c - m) :=
    mul_nonneg (sub_nonneg.mpr ha1) (sub_nonneg.mpr hl)
  have hp3 : 0 ≤ α * (M - max m (min v M)) :=
    mul_nonneg ha0 (sub_nonneg.mpr hw2)
  have hp4 : 0 ≤ (1 - α) * (M - c) :=
    mul_nonneg (sub_nonneg.mpr ha1) (sub_nonneg.mpr hu)
  cases b
  · simp only [Bool.false_eq_true, if_false]
    split
    · exact ⟨hl, hu⟩
    · exact ⟨hw1, hw2⟩
  · simp only [if_true]
    split
    · exact ⟨hl, hu⟩
    · constructor
      · nlinarith [hp1, hp2]
      · nlinarith [hp3, hp4]

/-- C8: starting anywhere inside the declared domain, `set_volume` and
`set_brightness` keep the current value inside `[VOLUME_MIN, VOLUME_MAX]`
resp. `[BRIGHTNESS_MIN, BRIGHTNESS_MAX]` for every requested value, with
or without smoothing (the input is clamped before use and the smoothed
blend of two in-range values is in range); in particular forcing the
volume to 0.0 — `mute`, or the forced `set_volume(0.0, smooth=False)` on
a paused tick — from the 0.5 default leaves `current_volume` at
`VOLUME_MIN = 0.15`, never 0. -/
theorem actuator_values_stay_in_domain :
    (∀ (c v : ℚ) (b : Bool), VOLUME_MIN ≤ c → c ≤ VOLUME_MAX →
      VOLUME_MIN ≤ setVolume c v b ∧ setVolume c v b ≤ VOLUME_MAX) ∧
    (∀ (c v : ℚ) (b : Bool), BRIGHTNESS_MIN ≤ c → c ≤ BRIGHTNESS_MAX →
      BRIGHTNESS_MIN ≤ setBrightness c v b ∧
      setBrightness c v b ≤ BRIGHTNESS_MAX) ∧
    muteVolume (1/2) = VOLUME_MIN ∧
    setVolume (1/2) 0 false = VOLUME_MIN ∧
    (VOLUME_MIN : ℚ) ≠ 0 := by
  refine ⟨?_, ?_, ?_, ?_, by norm_num [VOLUME_MIN]⟩
  · intro c v b hl hu
    have h := clamp_blend_bounds VOLUME_MIN VOLUME_MAX VOLUME_SMOOTHING
      VOLUME_STEP c v b (by norm_num [VOLUME_MIN, VOLUME_MAX])
      (by norm_num [VOLUME_SMOOTHING]) (by norm_num [VOLUME_SMOOTHING])
      hl hu
    simpa [setVolume] using h
  · intro c v b hl hu
    have h := clamp_blend_bounds BRIGHTNESS_MIN BRIGHTNESS_MAX
      BRIGHTNESS_SMOOTHING BRIGHTNESS_STEP c v b
      (by norm_num [BRIGHTNESS_MIN, BRIGHTNESS_MAX])
      (by norm_num [BRIGHTNESS_SMOOTHING])
      (by norm_num [BRIGHTNESS_SMOOTHING]) hl hu
    simpa [setBrightness] using h
  · norm_num [muteVolume, setVolume, VOLUME_MIN, VOLUME_MAX, VOLUME_STEP,
      abs]
  · norm_num [setVolume, VOLUME_MIN, VOLUME_MAX, VOLUME_STEP, abs]

/-- C8 witness: concrete in-range outputs — a smoothed request of 5.0
from volume 1/2 stays within [0.15, 1], and a brightness request of 200
from 50 stays within [20, 100]. -/
theorem actuator_values_stay_in_domain_witness :
    (VOLUME_MIN ≤ setVolume (1/2) 5 true ∧
     setVolume (1/2) 5 true ≤ VOLUME_MAX) ∧
    (BRIGHTNESS_MIN ≤ setBrightness 50 200 false ∧
     setBrightness 50 200 false ≤ BRIGHTNESS_MAX) := by
  constructor
  · exact actuator_values_stay_in_domain.1 (1/2) 5 true
      (by norm_num [VOLUME_MIN]) (by norm_num [VOLUME_MAX])
  · exact actuator_values_stay_in_domain.2.1 50 200 false
      (by norm_num [BRIGHTNESS_MIN]) (by norm_num [BRIGHTNESS_MAX])

/-! ### Claim about the volume power curve -/

/-- C9: the power curve computes `20 + 80 * normalized ** 0.4` on the
distance normalized and clamped into [0, 1]: normalized 0 gives 20%,
normalized 1 gives 100%, normalized 1/2 gives `20 + 80 * 0.5 ** 0.4`,
which lies strictly between 80.6% and 80.7% (≈ 80.6%), and the percent
value is divided by 100 before `set_volume` applies it. -/
theorem volume_power_curve_values :
    volumeTargetPercent 0 = 20 ∧
    volumeTargetPercent 1 = 100 ∧
    (806/10 : ℝ) < volumeTargetPercent (1/2) ∧
    volumeTargetPercent (1/2) < (807/10 : ℝ) ∧
    normalizedDistance 25 = 0 ∧
    normalizedDistance 400 = 1 ∧
    ∀ n : ℝ, volumeTarget n = volumeTargetPercent n / 100 := by
  have hexp : VOLUME_DISTANCE_EXPONENT = (2:ℝ)/5 := by
    norm_num [VOLUME_DISTANCE_EXPONENT]
  have hx5 : ((1/2 : ℝ) ^ ((2:ℝ)/5)) ^ (5:ℕ) = 1/4 := by
    rw [← Real.rpow_natCast ((1/2 : ℝ) ^ ((2:ℝ)/5)) 5,
        ← Real.rpow_mul (by norm_num : (0:ℝ) ≤ 1/2)]
    rw [show ((2:ℝ)/5 * (5:ℕ)) = ((2:ℕ):ℝ) by norm_num,
        Real.rpow_natCast]
    norm_num
  have hxpos : (0:ℝ) ≤ (1/2 : ℝ) ^ ((2:ℝ)/5) :=
    Real.rpow_nonneg (by norm_num) _
  have hlow : (7578/10000 : ℝ) < (1/2 : ℝ) ^ ((2:ℝ)/5) := by
    apply lt_of_pow_lt_pow_left₀ 5 hxpos
    rw [hx5]; norm_num
  have hhigh : (1/2 : ℝ) ^ ((2:ℝ)/5) < (758/1000 : ℝ) := by
    apply lt_of_pow_lt_pow_left₀ 5 (by norm_num)
    rw [hx5]; norm_num
  refine ⟨?_, ?_, ?_, ?_, ?_, ?_, fun n => rfl⟩
  · rw [volumeTargetPercent,
        Real.zero_rpow (by norm_num [VOLUME_DISTANCE_EXPONENT])]
    norm_num
  · rw [volumeTargetPercent, Real.one_rpow]
    norm_num
  · rw [volumeTargetPercent, hexp]
    nlinarith [hlow]
  · rw [volumeTargetPercent, hexp]
    nlinarith [hhigh]
  · norm_num [normalizedDistance, clip01]
  · norm_num [normalizedDistance, clip01]

/-! ### Claim about weighted aggregation -/

/-- Helper for C10: the accumulation loop of
`calculate_weighted_distance` computes the sum of weighted distances and
the sum of weights. -/
theorem weight_foldl_eq (l : List FaceData) :
    ∀ a b : ℝ,
      l.foldl
        (fun (p : ℝ × ℝ) face =>
          (p.1 + face.distance * calculateFaceWeight face,
           p.2 + calculateFaceWeight face)) (a, b) =
      (a + (l.map (fun f => f.distance * calculateFaceWeight f)).sum,
       b + (l.map calculateFaceWeight).sum) := by
  induction l with
  | nil => intro a b; simp
  | cons f fs ih => intro a b; simp [ih, add_assoc]

/-- C10: for every non-empty face list the aggregated distance equals the
weighted arithmetic mean with weight
`distance_weight * spatial_weight` (unweighted mean when the total weight
is zero); for a subject at 60 cm in the frame center (weight 2.0 * 1.5)
and one at 120 cm at the frame edge (weight 1.0 * 1.0) the aggregate is
75 cm, strictly closer to 60 than the unweighted mean 90. -/
theorem weighted_distance_favors_near_center :
    (∀ (f : FaceData) (fs : List FaceData),
      calculateWeightedDistance (f :: fs) =
        specWeightedAggregate (f :: fs)) ∧
    calculateWeightedDistance
      [⟨60, (0.5, 0.5)⟩, ⟨120, (0, 0.5)⟩] = 75 ∧
    ((60:ℝ) + 120) / 2 = 90 ∧
    |(75:ℝ) - 60| < |(90:ℝ) - 60| := by
  have hw1 : calculateSpatialWeight ((0.5 : ℝ), (0.5 : ℝ)) = 1.5 := by
    rw [calculateSpatialWeight]
    norm_num [Real.sqrt_zero]
  have hw2 : calculateSpatialWeight ((0 : ℝ), (0.5 : ℝ)) = 1.0 := by
    rw [calculateSpatialWeight]
    simp only
    rw [show ((0:ℝ) - 0.5) ^ 2 + ((0.5:ℝ) - 0.5) ^ 2 = (1/2:ℝ) ^ 2 by
          norm_num,
        Real.sqrt_sq (by norm_num : (0:ℝ) ≤ 1/2)]
    norm_num
  refine ⟨?_, ?_, by norm_num, by norm_num [abs]⟩
  · intro f fs
    rw [calculateWeightedDistance, specWeightedAggregate]
    simp only [weight_foldl_eq, zero_add]
  · rw [calculateWeightedDistance]
    simp only [List.foldl, calculateFaceWeight, calculateDistanceWeight,
      hw1, hw2]
    norm_num

end EADA
